import Mathlib

/-!
Verification of the GCB sizing calculation engine.

This file gives a shallow embedding, over the real numbers, of the fault
current solvers, the waveform sampler (src/services/geminiService.ts,
calculation part) and the standard rating selection logic (src/App.tsx),
together with theorems settling the stated properties of the engine.
-/

namespace GCB

/-- Source tag of a fault calculation result. -/
inductive Source where
  | System : Source
  | Generator : Source
deriving DecidableEq

/-- Mirror of the GeneratorData record in src/types.ts. -/
structure GeneratorData where
  mva : ℝ
  voltageKv : ℝ
  powerFactor : ℝ
  subtransientReactanceXd : ℝ
  xrRatio : ℝ

/-- Mirror of the TransformerData record in src/types.ts. -/
structure TransformerData where
  mva : ℝ
  impedanceZ : ℝ
  xrRatio : ℝ
  primaryVoltageKv : ℝ
  secondaryVoltageKv : ℝ

/-- Mirror of the SystemData record in src/types.ts. -/
structure SystemData where
  shortCircuitCapacityMva : ℝ
  xrRatio : ℝ

/-- Mirror of the CalculationResult record in src/types.ts.  The boolean
flag of the source is modelled as a proposition. -/
structure CalculationResult where
  source : Source
  symmetricalCurrentkA : ℝ
  dcComponentPercent : ℝ
  peakCurrentkA : ℝ
  asymmetricalCurrentkA : ℝ
  topOilRise : Option ℝ
  breakingCapacityRequired : ℝ
  timeConstantMs : ℝ
  currentZerosSkipped : Prop

/-- Model of Number(x.toFixed(2)): round to two decimal places.  Used at
result construction, mirroring the .toFixed(2) calls in the source. -/
noncomputable def round2 (x : ℝ) : ℝ := (round (x * 100) : ℤ) / 100

/-- Angular frequency used throughout the source: omega = 2 pi 60. -/
noncomputable def omega60 : ℝ := 2 * Real.pi * 60

/-- DC component fraction at a parting time, as computed inside both
solvers: dcPercent = 100 * exp(-contactPartingTimeMs / tauMs). -/
noncomputable def dcPercentAt (tauMs contactPartingTimeMs : ℝ) : ℝ :=
  100 * Real.exp (-contactPartingTimeMs / tauMs)

/-- System impedance referred to the generator side voltage:
zSysOhms = uBase^2 / shortCircuitCapacityMva. -/
noncomputable def zSysOhms (gsu : TransformerData) (sys : SystemData) : ℝ :=
  gsu.secondaryVoltageKv ^ 2 / sys.shortCircuitCapacityMva

/-- GSU transformer impedance in ohms:
zGsuOhms = (Z% / 100) * (uBase^2 / mva). -/
noncomputable def zGsuOhms (gsu : TransformerData) : ℝ :=
  gsu.impedanceZ / 100 * (gsu.secondaryVoltageKv ^ 2 / gsu.mva)

/-- Total resistance of the system path: each impedance split by its X/R
ratio through theta = atan(xr), r = z cos(theta), then summed. -/
noncomputable def rTotalSystem (gsu : TransformerData) (sys : SystemData) : ℝ :=
  zSysOhms gsu sys * Real.cos (Real.arctan sys.xrRatio) +
    zGsuOhms gsu * Real.cos (Real.arctan gsu.xrRatio)

/-- Total reactance of the system path: x = z sin(atan(xr)), summed. -/
noncomputable def xTotalSystem (gsu : TransformerData) (sys : SystemData) : ℝ :=
  zSysOhms gsu sys * Real.sin (Real.arctan sys.xrRatio) +
    zGsuOhms gsu * Real.sin (Real.arctan gsu.xrRatio)

/-- Mirror of calculateSystemSourceFault in src/services/geminiService.ts.
The unused peakFactor local of the source is dead code and omitted. -/
noncomputable def calculateSystemSourceFault (gen : GeneratorData)
    (gsu : TransformerData) (sys : SystemData)
    (contactPartingTimeMs : ℝ) : CalculationResult :=
  let uBase := gsu.secondaryVoltageKv
  let rTotal := rTotalSystem gsu sys
  let xTotal := xTotalSystem gsu sys
  let zTotal := Real.sqrt (rTotal * rTotal + xTotal * xTotal)
  let iSym := uBase / (Real.sqrt 3 * zTotal)
  let tauMs := xTotal / (omega60 * rTotal) * 1000
  let dcPercent := dcPercentAt tauMs contactPartingTimeMs
  let iDcKiloAmps := Real.sqrt 2 * iSym * (dcPercent / 100)
  let iAsymBreaking := Real.sqrt (iSym ^ 2 + iDcKiloAmps ^ 2)
  let iPeak := Real.sqrt 2 * iSym * (1 + Real.exp (-10 / tauMs))
  { source := Source.System
    symmetricalCurrentkA := round2 iSym
    dcComponentPercent := round2 dcPercent
    peakCurrentkA := round2 iPeak
    asymmetricalCurrentkA := round2 iAsymBreaking
    topOilRise := none
    breakingCapacityRequired := round2 iAsymBreaking
    timeConstantMs := round2 tauMs
    currentZerosSkipped := False }

/-- Base impedance of the generator: zBase = voltageKv^2 / mva. -/
noncomputable def zBaseGen (gen : GeneratorData) : ℝ :=
  gen.voltageKv ^ 2 / gen.mva

/-- Generator subtransient reactance in ohms:
xdDoublePrimeOhms = (Xd% / 100) * zBase. -/
noncomputable def xdDoublePrimeOhms (gen : GeneratorData) : ℝ :=
  gen.subtransientReactanceXd / 100 * zBaseGen gen

/-- Generator resistance, back-derived from the X/R ratio:
rGen = xdDoublePrimeOhms / xrRatio. -/
noncomputable def rGen (gen : GeneratorData) : ℝ :=
  xdDoublePrimeOhms gen / gen.xrRatio

/-- Mirror of calculateGeneratorSourceFault in
src/services/geminiService.ts. -/
noncomputable def calculateGeneratorSourceFault (gen : GeneratorData)
    (contactPartingTimeMs : ℝ) : CalculationResult :=
  let uBase := gen.voltageKv
  let x := xdDoublePrimeOhms gen
  let r := rGen gen
  let zGenTotal := Real.sqrt (r * r + x * x)
  let iSym := uBase / (Real.sqrt 3 * zGenTotal)
  let tauMs := x / (omega60 * r) * 1000
  let dcPercent := dcPercentAt tauMs contactPartingTimeMs
  let iDcKiloAmps := Real.sqrt 2 * iSym * (dcPercent / 100)
  let iAsymBreaking := Real.sqrt (iSym ^ 2 + iDcKiloAmps ^ 2)
  let iPeak := Real.sqrt 2 * iSym * 2
  { source := Source.Generator
    symmetricalCurrentkA := round2 iSym
    dcComponentPercent := round2 dcPercent
    peakCurrentkA := round2 iPeak
    asymmetricalCurrentkA := round2 iAsymBreaking
    topOilRise := none
    breakingCapacityRequired := round2 iAsymBreaking
    timeConstantMs := round2 tauMs
    currentZerosSkipped := dcPercent > 100 }

/-- Mirror of one WaveformSample point of generateWaveformData. -/
structure WaveformSample where
  time : ℝ
  current : ℝ
  dc : ℝ
  envelopePos : ℝ
  envelopeNeg : ℝ

/-- Sample of the waveform at an integer millisecond offset t, as built in
the loop body of generateWaveformData. -/
noncomputable def waveformSampleAt (iSym tauMs freq : ℝ) (t : ℕ) : WaveformSample :=
  let omega := 2 * Real.pi * freq
  let tSec := (t : ℝ) / 1000
  let ac := Real.sqrt 2 * iSym * Real.sin (omega * tSec)
  let dc := Real.sqrt 2 * iSym * Real.exp (-(t : ℝ) / tauMs)
  { time := (t : ℝ)
    current := ac + dc
    dc := dc
    envelopePos := dc + Real.sqrt 2 * iSym
    envelopeNeg := dc - Real.sqrt 2 * iSym }

/-- Mirror of generateWaveformData: the loop for t = 0; t <= totalTime;
t += 1 with totalTime = 5 * (1000 / freq) visits the integer offsets
t = 0, 1, ..., floor(totalTime), hence floor(totalTime) + 1 samples when
totalTime is nonnegative and none otherwise. -/
noncomputable def generateWaveformData (iSym tauMs : ℝ) (freq : ℝ := 60) :
    List WaveformSample :=
  if 0 ≤ 5 * (1000 / freq) then
    (List.range (⌊5 * (1000 / freq)⌋₊ + 1)).map (waveformSampleAt iSym tauMs freq)
  else []

/-- Per-parameter triple of the rating table in src/App.tsx; the field
calc of the source is named calcValue here since calc is reserved. -/
structure RatingTriple where
  calcValue : ℝ
  margin : ℝ
  selected : ℝ

/-- Result of the rating selection logic in src/App.tsx. -/
structure RatingSelection where
  continuous : RatingTriple
  sym : RatingTriple
  asym : RatingTriple
  peak : RatingTriple

/-- Standard symmetrical breaking rating list of src/App.tsx. -/
noncomputable def stdBreakKA : List ℝ :=
  [31.5, 40, 50, 63, 72, 80, 90, 100, 120, 140, 160, 190, 200]

/-- Model of stdBreakKA.find(k => k >= x) || fallback: the first list
entry at or above x, else the fallback value. -/
noncomputable def findFirstGE : List ℝ → ℝ → ℝ → ℝ
  | [], _, fallbackKA => fallbackKA
  | k :: rest, x, fallbackKA => if x ≤ k then k else findFirstGE rest x fallbackKA

/-- Mirror of the ratings computation in src/App.tsx (lines 94-127). -/
noncomputable def ratings (sysResult genResult : CalculationResult)
    (genData : GeneratorData) (marginPercent : ℝ) : RatingSelection :=
  let continuousCurrentA := genData.mva * 1000 / (Real.sqrt 3 * genData.voltageKv)
  let maxSymKA := max sysResult.symmetricalCurrentkA genResult.symmetricalCurrentkA
  let maxAsymKA := max sysResult.asymmetricalCurrentkA genResult.asymmetricalCurrentkA
  let maxPeakKA := max sysResult.peakCurrentkA genResult.peakCurrentkA
  let marginFactor := 1 + marginPercent / 100
  let marginContinuousA := continuousCurrentA * marginFactor
  let marginSymKA := maxSymKA * marginFactor
  let marginAsymKA := maxAsymKA * marginFactor
  let marginPeakKA := maxPeakKA * marginFactor
  let selectedCurrentA : ℝ := (⌈marginContinuousA / 500⌉ : ℤ) * 500
  let selectedSymKA := findFirstGE stdBreakKA marginSymKA (stdBreakKA.getLastD 0)
  let derivedPeakKA := selectedSymKA * 2.74
  let derivedAsymKA := selectedSymKA * 1.732
  { continuous := ⟨continuousCurrentA, marginContinuousA, selectedCurrentA⟩
    sym := ⟨maxSymKA, marginSymKA, selectedSymKA⟩
    asym := ⟨maxAsymKA, marginAsymKA, derivedAsymKA⟩
    peak := ⟨maxPeakKA, marginPeakKA, derivedPeakKA⟩ }

/-- From the spec: the combined impedance magnitude |Z| = sqrt(R^2 + X^2). -/
noncomputable def spec_absZ (R X : ℝ) : ℝ := Real.sqrt (R ^ 2 + X ^ 2)

/-- From the spec: symmetrical RMS current Isym = Vbase / (sqrt 3 * |Z|). -/
noncomputable def spec_Isym (R X V : ℝ) : ℝ := V / (Real.sqrt 3 * spec_absZ R X)

/-- From the spec: decay time constant tauMs = (X / (omega R)) * 1000 with
omega = 2 pi 60. -/
noncomputable def spec_tauMs (R X : ℝ) : ℝ := X / (2 * Real.pi * 60 * R) * 1000

/-- From the spec: DC fraction DC% = 100 * exp(-t / tauMs). -/
noncomputable def spec_dcPercent (R X t : ℝ) : ℝ :=
  100 * Real.exp (-t / spec_tauMs R X)

/-- From the spec: DC magnitude Idc = sqrt 2 * Isym * (DC% / 100). -/
noncomputable def spec_Idc (R X V t : ℝ) : ℝ :=
  Real.sqrt 2 * spec_Isym R X V * (spec_dcPercent R X t / 100)

/-- From the spec: asymmetrical breaking current
Iasym = sqrt(Isym^2 + Idc^2). -/
noncomputable def spec_Iasym (R X V t : ℝ) : ℝ :=
  Real.sqrt (spec_Isym R X V ^ 2 + spec_Idc R X V t ^ 2)

lemma sqrt_mul_self_add_eq_absZ (r x : ℝ) :
    Real.sqrt (r * r + x * x) = spec_absZ r x := by
  rw [spec_absZ]; congr 1; ring

/-- C1: for every fault solver invocation with the derived resistance R,
reactance X, base voltage V and contact parting time t, the returned
symmetrical current, time constant, DC percentage and asymmetrical
breaking current equal the full precision spec formulas
|Z| = sqrt(R^2 + X^2), Isym = V / (sqrt 3 |Z|), tauMs = (X/(omega R)) 1000,
DC% = 100 exp(-t/tauMs), Idc = sqrt 2 Isym (DC%/100),
Iasym = sqrt(Isym^2 + Idc^2), rounded to two decimals only at result
construction. -/
theorem solver_fields_are_rounded_spec_formulas :
    ∀ (gen : GeneratorData) (gsu : TransformerData) (sys : SystemData) (t : ℝ),
    ((calculateSystemSourceFault gen gsu sys t).symmetricalCurrentkA
        = round2 (spec_Isym (rTotalSystem gsu sys) (xTotalSystem gsu sys)
            gsu.secondaryVoltageKv)
      ∧ (calculateSystemSourceFault gen gsu sys t).timeConstantMs
        = round2 (spec_tauMs (rTotalSystem gsu sys) (xTotalSystem gsu sys))
      ∧ (calculateSystemSourceFault gen gsu sys t).dcComponentPercent
        = round2 (spec_dcPercent (rTotalSystem gsu sys) (xTotalSystem gsu sys) t)
      ∧ (calculateSystemSourceFault gen gsu sys t).asymmetricalCurrentkA
        = round2 (spec_Iasym (rTotalSystem gsu sys) (xTotalSystem gsu sys)
            gsu.secondaryVoltageKv t)
      ∧ (calculateSystemSourceFault gen gsu sys t).breakingCapacityRequired
        = round2 (spec_Iasym (rTotalSystem gsu sys) (xTotalSystem gsu sys)
            gsu.secondaryVoltageKv t))
    ∧ ((calculateGeneratorSourceFault gen t).symmetricalCurrentkA
        = round2 (spec_Isym (rGen gen) (xdDoublePrimeOhms gen) gen.voltageKv)
      ∧ (calculateGeneratorSourceFault gen t).timeConstantMs
        = round2 (spec_tauMs (rGen gen) (xdDoublePrimeOhms gen))
      ∧ (calculateGeneratorSourceFault gen t).dcComponentPercent
        = round2 (spec_dcPercent (rGen gen) (xdDoublePrimeOhms gen) t)
      ∧ (calculateGeneratorSourceFault gen t).asymmetricalCurrentkA
        = round2 (spec_Iasym (rGen gen) (xdDoublePrimeOhms gen) gen.voltageKv t)
      ∧ (calculateGeneratorSourceFault gen t).breakingCapacityRequired
        = round2 (spec_Iasym (rGen gen) (xdDoublePrimeOhms gen) gen.voltageKv t)) := by
  intro gen gsu sys t
  simp only [calculateSystemSourceFault, calculateGeneratorSourceFault,
    sqrt_mul_self_add_eq_absZ, spec_Isym, spec_tauMs, spec_dcPercent, spec_Idc,
    spec_Iasym, dcPercentAt, omega60]
  tauto

/-- C4: the selected asymmetrical rating is the selected symmetrical
rating times 1.732, the selected peak rating is the selected symmetrical
rating times 2.74, and the calculated and margin columns of these two
parameters come from the per-source maxima, independent of the selection. -/
theorem derived_ratings_fixed_multipliers :
    ∀ (s g : CalculationResult) (d : GeneratorData) (m : ℝ),
    (ratings s g d m).asym.selected = (ratings s g d m).sym.selected * 1.732
    ∧ (ratings s g d m).peak.selected = (ratings s g d m).sym.selected * 2.74
    ∧ (ratings s g d m).asym.calcValue
        = max s.asymmetricalCurrentkA g.asymmetricalCurrentkA
    ∧ (ratings s g d m).asym.margin
        = max s.asymmetricalCurrentkA g.asymmetricalCurrentkA * (1 + m / 100)
    ∧ (ratings s g d m).peak.calcValue = max s.peakCurrentkA g.peakCurrentkA
    ∧ (ratings s g d m).peak.margin
        = max s.peakCurrentkA g.peakCurrentkA * (1 + m / 100) := by
  intro s g d m
  simp only [ratings]
  tauto

/-- C5: the two source paths use distinct peak current formulas: the
system path returns sqrt 2 * Isym * (1 + exp(-10 / tauMs)), the generator
path returns sqrt 2 * Isym * 2 (rounded at construction). -/
theorem peak_formulas_distinct_per_source :
    (∀ (gen : GeneratorData) (gsu : TransformerData) (sys : SystemData) (t : ℝ),
      (calculateSystemSourceFault gen gsu sys t).peakCurrentkA
        = round2 (Real.sqrt 2
            * spec_Isym (rTotalSystem gsu sys) (xTotalSystem gsu sys)
                gsu.secondaryVoltageKv
            * (1 + Real.exp (-10 /
                spec_tauMs (rTotalSystem gsu sys) (xTotalSystem gsu sys)))))
    ∧ ∀ (gen : GeneratorData) (t : ℝ),
      (calculateGeneratorSourceFault gen t).peakCurrentkA
        = round2 (Real.sqrt 2
            * spec_Isym (rGen gen) (xdDoublePrimeOhms gen) gen.voltageKv * 2) := by
  constructor
  · intro gen gsu sys t
    simp only [calculateSystemSourceFault, sqrt_mul_self_add_eq_absZ,
      spec_Isym, spec_tauMs, omega60]
  · intro gen t
    simp only [calculateGeneratorSourceFault, sqrt_mul_self_add_eq_absZ,
      spec_Isym, omega60]

/-- C6: the generator result flag currentZerosSkipped holds iff the
computed DC percentage exceeds 100, and the system result flag is always
false. -/
theorem zeros_skipped_iff_dc_gt_100 :
    (∀ (gen : GeneratorData) (t : ℝ),
      (calculateGeneratorSourceFault gen t).currentZerosSkipped ↔
        spec_dcPercent (rGen gen) (xdDoublePrimeOhms gen) t > 100)
    ∧ ∀ (gen : GeneratorData) (gsu : TransformerData) (sys : SystemData) (t : ℝ),
      ¬ (calculateSystemSourceFault gen gsu sys t).currentZerosSkipped := by
  constructor
  · intro gen t
    simp only [calculateGeneratorSourceFault, dcPercentAt, spec_dcPercent,
      spec_tauMs, omega60]
  · intro gen gsu sys t
    simp only [calculateSystemSourceFault]
    exact not_false

/-- C7: for every fixed positive tau, the DC fraction computed by the
solvers is strictly decreasing in the contact parting time, and equals
exactly 100 at parting time zero. -/
theorem dcPercent_strictly_decreasing_and_100_at_zero :
    ∀ tau : ℝ, 0 < tau →
    (∀ t1 t2 : ℝ, t1 < t2 → dcPercentAt tau t2 < dcPercentAt tau t1)
    ∧ dcPercentAt tau 0 = 100 := by
  intro tau htau
  constructor
  · intro t1 t2 h
    unfold dcPercentAt
    have hd : -t2 / tau < -t1 / tau :=
      (div_lt_div_iff_of_pos_right htau).mpr (neg_lt_neg h)
    have := Real.exp_lt_exp.mpr hd
    nlinarith
  · unfold dcPercentAt
    norm_num

/-- Witness for C7 at tau = 1, parting times 0 and 1. -/
theorem dcPercent_strictly_decreasing_witness :
    dcPercentAt 1 1 < dcPercentAt 1 0 ∧ dcPercentAt 1 0 = 100 := by
  have h := dcPercent_strictly_decreasing_and_100_at_zero 1 (by norm_num)
  exact ⟨h.1 0 1 (by norm_num), h.2⟩

@[simp] lemma findFirstGE_nil (x fallbackKA : ℝ) :
    findFirstGE [] x fallbackKA = fallbackKA := rfl

@[simp] lemma findFirstGE_cons (a : ℝ) (l : List ℝ) (x fallbackKA : ℝ) :
    findFirstGE (a :: l) x fallbackKA
      = if x ≤ a then a else findFirstGE l x fallbackKA := rfl

lemma findFirstGE_isLeast (x fallbackKA : ℝ) :
    ∀ l : List ℝ, l.Sorted (· ≤ ·) → (∃ k ∈ l, x ≤ k) →
      IsLeast {k : ℝ | k ∈ l ∧ x ≤ k} (findFirstGE l x fallbackKA) := by
  intro l
  induction l with
  | nil =>
    intro _ hex
    simp at hex
  | cons a rest ih =>
    intro hs hex
    rw [List.sorted_cons] at hs
    by_cases hxa : x ≤ a
    · rw [findFirstGE_cons, if_pos hxa]
      refine ⟨⟨List.mem_cons_self a rest, hxa⟩, ?_⟩
      rintro k ⟨hmem, hxk⟩
      rcases List.mem_cons.mp hmem with rfl | hmem
      · exact le_refl _
      · exact hs.1 k hmem
    · rw [findFirstGE_cons, if_neg hxa]
      have hex2 : ∃ k ∈ rest, x ≤ k := by
        rcases hex with ⟨k, hmem, hxk⟩
        rcases List.mem_cons.mp hmem with rfl | hmem
        · exact absurd hxk hxa
        · exact ⟨k, hmem, hxk⟩
      obtain ⟨⟨hmem, hxk⟩, hlb⟩ := ih hs.2 hex2
      refine ⟨⟨List.mem_cons_of_mem a hmem, hxk⟩, ?_⟩
      rintro k ⟨hmemk, hxk2⟩
      rcases List.mem_cons.mp hmemk with rfl | hmemk
      · exact absurd hxk2 hxa
      · exact hlb ⟨hmemk, hxk2⟩

lemma findFirstGE_eq_fallback (x fallbackKA : ℝ) :
    ∀ l : List ℝ, (∀ k ∈ l, ¬ x ≤ k) → findFirstGE l x fallbackKA = fallbackKA := by
  intro l
  induction l with
  | nil => intro _; rfl
  | cons a rest ih =>
    intro h
    rw [findFirstGE_cons, if_neg (h a (List.mem_cons_self a rest))]
    exact ih fun k hk => h k (List.mem_cons_of_mem a hk)

lemma stdBreakKA_sorted : stdBreakKA.Sorted (· ≤ ·) := by
  norm_num [stdBreakKA, List.sorted_cons]

lemma stdBreakKA_getLastD : stdBreakKA.getLastD 0 = 200 := rfl

lemma ceil_mul_500_isLeast (m : ℝ) :
    IsLeast {y : ℝ | (∃ n : ℤ, y = (n : ℝ) * 500) ∧ m ≤ y}
      ((⌈m / 500⌉ : ℤ) * 500) := by
  constructor
  · refine ⟨⟨⌈m / 500⌉, rfl⟩, ?_⟩
    have h := Int.le_ceil (m / 500)
    have h2 : m / 500 * 500 ≤ (⌈m / 500⌉ : ℝ) * 500 :=
      mul_le_mul_of_nonneg_right h (by norm_num)
    calc m = m / 500 * 500 := by ring
    _ ≤ (⌈m / 500⌉ : ℝ) * 500 := h2
  · rintro y ⟨⟨n, rfl⟩, hmy⟩
    have h1 : m / 500 ≤ (n : ℝ) := by
      rw [div_le_iff₀ (by norm_num : (0 : ℝ) < 500)]
      linarith
    have h2 : ⌈m / 500⌉ ≤ n := Int.ceil_le.mpr h1
    have h3 : ((⌈m / 500⌉ : ℤ) : ℝ) ≤ (n : ℝ) := by exact_mod_cast h2
    exact mul_le_mul_of_nonneg_right h3 (by norm_num)

/-- Constant CalculationResult carrying a given symmetrical current, used
to instantiate the rating selection on concrete values. -/
noncomputable def resOf (v : ℝ) : CalculationResult :=
  { source := Source.System
    symmetricalCurrentkA := v
    dcComponentPercent := 0
    peakCurrentkA := 0
    asymmetricalCurrentkA := 0
    topOilRise := none
    breakingCapacityRequired := 0
    timeConstantMs := 0
    currentZerosSkipped := False }

/-- Generator of the worked example of the spec: 100 MVA, 13.8 kV,
Xd double prime 15 percent, X/R = 30. -/
noncomputable def genExample : GeneratorData :=
  { mva := 100, voltageKv := 13.8, powerFactor := 0.85,
    subtransientReactanceXd := 15, xrRatio := 30 }

/-- C3: the continuous selected rating is the least multiple of 500 A at
or above the margin applied continuous current; the symmetrical selected
rating is the least entry of stdBreakKA at or above the margin applied
max of the two symmetrical currents, falling back to the list maximum 200
when no entry qualifies; a margin applied 45 selects 50 and a margin
applied 205 selects 200. -/
theorem rating_selection_least_standard :
    (∀ (s g : CalculationResult) (d : GeneratorData) (m : ℝ),
      IsLeast {y : ℝ | (∃ n : ℤ, y = (n : ℝ) * 500)
          ∧ (ratings s g d m).continuous.margin ≤ y}
        ((ratings s g d m).continuous.selected))
    ∧ (∀ (s g : CalculationResult) (d : GeneratorData) (m : ℝ),
      (ratings s g d m).sym.margin
        = max s.symmetricalCurrentkA g.symmetricalCurrentkA * (1 + m / 100))
    ∧ (∀ (s g : CalculationResult) (d : GeneratorData) (m : ℝ),
      (∃ k ∈ stdBreakKA, (ratings s g d m).sym.margin ≤ k) →
      IsLeast {k : ℝ | k ∈ stdBreakKA ∧ (ratings s g d m).sym.margin ≤ k}
        ((ratings s g d m).sym.selected))
    ∧ (∀ (s g : CalculationResult) (d : GeneratorData) (m : ℝ),
      (∀ k ∈ stdBreakKA, ¬ (ratings s g d m).sym.margin ≤ k) →
      (ratings s g d m).sym.selected = 200)
    ∧ (ratings (resOf 45) (resOf 45) genExample 0).sym.margin = 45
    ∧ (ratings (resOf 45) (resOf 45) genExample 0).sym.selected = 50
    ∧ (ratings (resOf 205) (resOf 205) genExample 0).sym.margin = 205
    ∧ (ratings (resOf 205) (resOf 205) genExample 0).sym.selected = 200 := by
  refine ⟨?_, ?_, ?_, ?_, ?_, ?_, ?_, ?_⟩
  · intro s g d m
    simp only [ratings]
    exact ceil_mul_500_isLeast _
  · intro s g d m
    simp only [ratings]
  · intro s g d m hex
    simp only [ratings] at hex ⊢
    exact findFirstGE_isLeast _ _ stdBreakKA stdBreakKA_sorted hex
  · intro s g d m h
    simp only [ratings] at h ⊢
    rw [findFirstGE_eq_fallback _ _ stdBreakKA h, stdBreakKA_getLastD]
  · norm_num [ratings, resOf]
  · norm_num [ratings, resOf, stdBreakKA]
  · norm_num [ratings, resOf]
  · norm_num [ratings, resOf, stdBreakKA]

/-- Witness for C3: the nonempty branch at a margin applied 45 and the
fallback branch at a margin applied 300. -/
theorem rating_selection_least_standard_witness :
    IsLeast {k : ℝ | k ∈ stdBreakKA
        ∧ (ratings (resOf 45) (resOf 45) genExample 0).sym.margin ≤ k}
      ((ratings (resOf 45) (resOf 45) genExample 0).sym.selected)
    ∧ (ratings (resOf 300) (resOf 300) genExample 0).sym.selected = 200 := by
  constructor
  · refine rating_selection_least_standard.2.2.1 _ _ _ _ ⟨50, ?_, ?_⟩
    · norm_num [stdBreakKA]
    · norm_num [ratings, resOf]
  · refine rating_selection_least_standard.2.2.2.1 _ _ _ _ ?_
    intro k hk
    fin_cases hk <;> norm_num [ratings, resOf]

lemma round2_nonneg {x : ℝ} (hx : 0 ≤ x) : 0 ≤ round2 x := by
  unfold round2
  have h : (0 : ℤ) ≤ round (x * 100) := by
    rw [round_eq]
    exact Int.le_floor.mpr (by push_cast; nlinarith)
  have h2 : (0 : ℝ) ≤ (round (x * 100) : ℤ) := by exact_mod_cast h
  linarith

lemma round2_mono : Monotone round2 := by
  intro a b hab
  unfold round2
  have h : round (a * 100) ≤ round (b * 100) := by
    rw [round_eq, round_eq]
    exact Int.floor_mono (by linarith)
  have h2 : ((round (a * 100) : ℤ) : ℝ) ≤ ((round (b * 100) : ℤ) : ℝ) := by
    exact_mod_cast h
  linarith

lemma omega60_pos : 0 < omega60 := by
  unfold omega60
  have h := Real.pi_pos
  nlinarith

lemma iAsym_ge_iSym (iSym idc : ℝ) (h : 0 ≤ iSym) :
    iSym ≤ Real.sqrt (iSym ^ 2 + idc ^ 2) := by
  calc iSym = Real.sqrt (iSym ^ 2) := (Real.sqrt_sq h).symm
  _ ≤ Real.sqrt (iSym ^ 2 + idc ^ 2) :=
      Real.sqrt_le_sqrt (by nlinarith [sq_nonneg idc])

/-- C8: for inputs yielding positive resistance and reactance (and a
positive base voltage, per the data model invariants), both solvers
return nonnegative symmetrical, asymmetrical and peak currents and time
constant, with the asymmetrical current at least the symmetrical one. -/
theorem solver_outputs_nonneg :
    (∀ (gen : GeneratorData) (gsu : TransformerData) (sys : SystemData) (t : ℝ),
      0 < gsu.secondaryVoltageKv → 0 < rTotalSystem gsu sys →
      0 < xTotalSystem gsu sys →
      0 ≤ (calculateSystemSourceFault gen gsu sys t).symmetricalCurrentkA
      ∧ 0 ≤ (calculateSystemSourceFault gen gsu sys t).asymmetricalCurrentkA
      ∧ 0 ≤ (calculateSystemSourceFault gen gsu sys t).peakCurrentkA
      ∧ 0 ≤ (calculateSystemSourceFault gen gsu sys t).timeConstantMs
      ∧ (calculateSystemSourceFault gen gsu sys t).symmetricalCurrentkA
          ≤ (calculateSystemSourceFault gen gsu sys t).asymmetricalCurrentkA)
    ∧ ∀ (gen : GeneratorData) (t : ℝ),
      0 < gen.voltageKv → 0 < rGen gen → 0 < xdDoublePrimeOhms gen →
      0 ≤ (calculateGeneratorSourceFault gen t).symmetricalCurrentkA
      ∧ 0 ≤ (calculateGeneratorSourceFault gen t).asymmetricalCurrentkA
      ∧ 0 ≤ (calculateGeneratorSourceFault gen t).peakCurrentkA
      ∧ 0 ≤ (calculateGeneratorSourceFault gen t).timeConstantMs
      ∧ (calculateGeneratorSourceFault gen t).symmetricalCurrentkA
          ≤ (calculateGeneratorSourceFault gen t).asymmetricalCurrentkA := by
  constructor
  · intro gen gsu sys t hV hr hx
    simp only [calculateSystemSourceFault]
    have hiSym : 0 ≤ gsu.secondaryVoltageKv /
        (Real.sqrt 3 * Real.sqrt (rTotalSystem gsu sys * rTotalSystem gsu sys
          + xTotalSystem gsu sys * xTotalSystem gsu sys)) :=
      div_nonneg hV.le (by positivity)
    refine ⟨round2_nonneg hiSym, round2_nonneg (Real.sqrt_nonneg _),
      round2_nonneg ?_, round2_nonneg ?_, round2_mono (iAsym_ge_iSym _ _ hiSym)⟩
    · exact mul_nonneg (mul_nonneg (Real.sqrt_nonneg 2) hiSym) (by positivity)
    · exact mul_nonneg
        (div_nonneg hx.le (mul_nonneg omega60_pos.le hr.le)) (by norm_num)
  · intro gen t hV hr hx
    simp only [calculateGeneratorSourceFault]
    have hiSym : 0 ≤ gen.voltageKv /
        (Real.sqrt 3 * Real.sqrt (rGen gen * rGen gen
          + xdDoublePrimeOhms gen * xdDoublePrimeOhms gen)) :=
      div_nonneg hV.le (by positivity)
    refine ⟨round2_nonneg hiSym, round2_nonneg (Real.sqrt_nonneg _),
      round2_nonneg ?_, round2_nonneg ?_, round2_mono (iAsym_ge_iSym _ _ hiSym)⟩
    · exact mul_nonneg (mul_nonneg (Real.sqrt_nonneg 2) hiSym) (by norm_num)
    · exact mul_nonneg
        (div_nonneg hx.le (mul_nonneg omega60_pos.le hr.le)) (by norm_num)

/-- GSU transformer default data of src/App.tsx. -/
noncomputable def gsuExample : TransformerData :=
  { mva := 120, impedanceZ := 10, xrRatio := 40,
    primaryVoltageKv := 154, secondaryVoltageKv := 13.8 }

/-- System default data of src/App.tsx. -/
noncomputable def sysExample : SystemData :=
  { shortCircuitCapacityMva := 10000, xrRatio := 15 }

lemma rTotalSystem_example_pos : 0 < rTotalSystem gsuExample sysExample := by
  simp only [rTotalSystem, zSysOhms, zGsuOhms, gsuExample, sysExample]
  exact add_pos (mul_pos (by norm_num) (Real.cos_arctan_pos _))
    (mul_pos (by norm_num) (Real.cos_arctan_pos _))

lemma xTotalSystem_example_pos : 0 < xTotalSystem gsuExample sysExample := by
  simp only [xTotalSystem, zSysOhms, zGsuOhms, gsuExample, sysExample]
  have h15 : 0 < Real.sin (Real.arctan 15) := by
    rw [Real.sin_arctan]; positivity
  have h40 : 0 < Real.sin (Real.arctan 40) := by
    rw [Real.sin_arctan]; positivity
  exact add_pos (mul_pos (by norm_num) h15) (mul_pos (by norm_num) h40)

lemma rGen_example_pos : 0 < rGen genExample := by
  simp only [rGen, xdDoublePrimeOhms, zBaseGen, genExample]
  norm_num

lemma xdOhms_example_pos : 0 < xdDoublePrimeOhms genExample := by
  simp only [xdDoublePrimeOhms, zBaseGen, genExample]
  norm_num

/-- Witness for C8 at the default data of the application shell. -/
theorem solver_outputs_nonneg_witness :
    (0 ≤ (calculateSystemSourceFault genExample gsuExample sysExample 50).symmetricalCurrentkA
      ∧ (calculateSystemSourceFault genExample gsuExample sysExample 50).symmetricalCurrentkA
        ≤ (calculateSystemSourceFault genExample gsuExample sysExample 50).asymmetricalCurrentkA)
    ∧ 0 ≤ (calculateGeneratorSourceFault genExample 50).timeConstantMs := by
  have hsys := solver_outputs_nonneg.1 genExample gsuExample sysExample 50
    (by norm_num [gsuExample]) rTotalSystem_example_pos xTotalSystem_example_pos
  have hgen := solver_outputs_nonneg.2 genExample 50
    (by norm_num [genExample]) rGen_example_pos xdOhms_example_pos
  exact ⟨⟨hsys.1, hsys.2.2.2.2⟩, hgen.2.2.2.1⟩

/-- C10: for every generator input with positive MVA, voltage,
subtransient reactance percent and X/R ratio and a nonnegative parting
time, the computed DC fraction is at most 100 and the delayed current
zero flag is false. -/
theorem gen_dc_at_most_100_for_valid_inputs :
    ∀ (gen : GeneratorData) (t : ℝ),
    0 < gen.mva → 0 < gen.voltageKv → 0 < gen.subtransientReactanceXd →
    0 < gen.xrRatio → 0 ≤ t →
    dcPercentAt (xdDoublePrimeOhms gen / (omega60 * rGen gen) * 1000) t ≤ 100
    ∧ ¬ (calculateGeneratorSourceFault gen t).currentZerosSkipped := by
  intro gen t hmva hV hxd hxr ht
  have hzB : 0 < zBaseGen gen := div_pos (pow_pos hV 2) hmva
  have hx : 0 < xdDoublePrimeOhms gen := by
    unfold xdDoublePrimeOhms
    exact mul_pos (div_pos hxd (by norm_num)) hzB
  have hr : 0 < rGen gen := div_pos hx hxr
  have htau : 0 < xdDoublePrimeOhms gen / (omega60 * rGen gen) * 1000 :=
    mul_pos (div_pos hx (mul_pos omega60_pos hr)) (by norm_num)
  have hdc : dcPercentAt (xdDoublePrimeOhms gen / (omega60 * rGen gen) * 1000) t
      ≤ 100 := by
    unfold dcPercentAt
    have h0 : 0 ≤ t / (xdDoublePrimeOhms gen / (omega60 * rGen gen) * 1000) :=
      div_nonneg ht htau.le
    have h1 : -t / (xdDoublePrimeOhms gen / (omega60 * rGen gen) * 1000) ≤ 0 := by
      rw [neg_div]; linarith
    have h2 := Real.exp_le_one_iff.mpr h1
    linarith
  refine ⟨hdc, ?_⟩
  simp only [calculateGeneratorSourceFault]
  exact not_lt.mpr hdc

/-- Witness for C10 at the default generator data and 50 ms. -/
theorem gen_dc_at_most_100_witness :
    dcPercentAt (xdDoublePrimeOhms genExample / (omega60 * rGen genExample) * 1000)
      50 ≤ 100
    ∧ ¬ (calculateGeneratorSourceFault genExample 50).currentZerosSkipped :=
  gen_dc_at_most_100_for_valid_inputs genExample 50 (by norm_num [genExample])
    (by norm_num [genExample]) (by norm_num [genExample])
    (by norm_num [genExample]) (by norm_num)

lemma round2_eq_of_bounds (x : ℝ) (n : ℤ) (h1 : (n : ℝ) - 1 / 2 ≤ x * 100)
    (h2 : x * 100 < (n : ℝ) + 1 / 2) : round2 x = (n : ℝ) / 100 := by
  unfold round2
  have h : round (x * 100) = n := by
    rw [round_eq, Int.floor_eq_iff]
    constructor
    · linarith
    · linarith
  rw [h]

lemma genExample_xd : xdDoublePrimeOhms genExample = 0.28566 := by
  unfold xdDoublePrimeOhms zBaseGen genExample
  norm_num

lemma genExample_rGen : rGen genExample = 0.009522 := by
  unfold rGen
  rw [genExample_xd]
  unfold genExample
  norm_num

lemma genExample_iSym_eq :
    (calculateGeneratorSourceFault genExample 50).symmetricalCurrentkA = 27.88 := by
  simp only [calculateGeneratorSourceFault, genExample_xd, genExample_rGen]
  have hV : genExample.voltageKv = 13.8 := rfl
  rw [hV]
  have hq : (0.009522 : ℝ) * 0.009522 + 0.28566 * 0.28566
      = 0.245076912252 / 3 := by norm_num
  rw [hq]
  have hmul : Real.sqrt 3 * Real.sqrt (0.245076912252 / 3)
      = Real.sqrt 0.245076912252 := by
    rw [← Real.sqrt_mul (by norm_num : (0 : ℝ) ≤ 3)]
    norm_num
  rw [hmul]
  have hs_pos : 0 < Real.sqrt 0.245076912252 :=
    Real.sqrt_pos.mpr (by norm_num)
  have hub : Real.sqrt 0.245076912252 < 0.495067 :=
    (Real.sqrt_lt' (by norm_num)).mpr (by norm_num)
  have hlb : (0.4949 : ℝ) < Real.sqrt 0.245076912252 :=
    (Real.lt_sqrt (by norm_num)).mpr (by norm_num)
  have h1 : ((2788 : ℤ) : ℝ) - 1 / 2
      ≤ 13.8 / Real.sqrt 0.245076912252 * 100 := by
    rw [div_mul_eq_mul_div, le_div_iff₀ hs_pos]
    push_cast
    nlinarith
  have h2 : 13.8 / Real.sqrt 0.245076912252 * 100
      < ((2788 : ℤ) : ℝ) + 1 / 2 := by
    rw [div_mul_eq_mul_div, div_lt_iff₀ hs_pos]
    push_cast
    nlinarith
  rw [round2_eq_of_bounds _ 2788 h1 h2]
  norm_num

/-- C2 counterexample: at the generator input 100 MVA, 13.8 kV, 15
percent, X/R 30 with 50 ms parting time, the solver returns 27.88 kA,
which is not approximately 24.17 kA: it differs by more than 3.7 kA. -/
theorem genExample_symmetrical_not_24_17 :
    (calculateGeneratorSourceFault genExample 50).symmetricalCurrentkA ≠ 24.17
    ∧ |(calculateGeneratorSourceFault genExample 50).symmetricalCurrentkA - 24.17|
        > 3.7 := by
  rw [genExample_iSym_eq]
  constructor
  · norm_num
  · rw [show (27.88 : ℝ) - 24.17 = 3.71 by norm_num, abs_of_pos (by norm_num)]
    norm_num

/-- C2 amended: for the generator input 100 MVA, 13.8 kV, Xd double prime
15 percent, X/R 30 with 50 ms parting time at 60 Hz, the solver returns a
symmetrical current of 27.88 kA (about 27.876 before rounding), arising
from the intermediates zBase = 1.9044 ohm, X = 0.28566 ohm (0.2857 as
rounded in the spec) and R = 0.009522 ohm. -/
theorem genExample_symmetrical_27_88 :
    (calculateGeneratorSourceFault genExample 50).symmetricalCurrentkA = 27.88
    ∧ zBaseGen genExample = 1.9044
    ∧ xdDoublePrimeOhms genExample = 0.28566
    ∧ rGen genExample = 0.009522 := by
  refine ⟨genExample_iSym_eq, ?_, genExample_xd, genExample_rGen⟩
  unfold zBaseGen genExample
  norm_num

lemma waveform60_floor : ⌊(5 : ℝ) * (1000 / 60)⌋₊ = 83 := by
  rw [Nat.floor_eq_iff (by norm_num)]
  norm_num

lemma generateWaveformData_60_eq :
    generateWaveformData 20 50 60
      = (List.range 84).map (waveformSampleAt 20 50 60) := by
  unfold generateWaveformData
  rw [if_pos (by norm_num), waveform60_floor]

/-- C9 counterexample: the sampler called with Isym = 20, tau = 50,
f = 60 returns 84 samples, and 84 is not the quantity 5 (1000/60) + 1
claimed for the sample count. -/
theorem waveform_count_not_fractional :
    ((generateWaveformData 20 50 60).length : ℝ) ≠ 5 * (1000 / 60) + 1 := by
  rw [generateWaveformData_60_eq, List.length_map, List.length_range]
  norm_num

/-- C9 amended: the sampler called with Isym = 20, tau = 50, f = 60
returns exactly floor(5 (1000/60)) + 1 = 84 samples, one per integer
millisecond from 0 to 83, and the DC term of the first sample equals
sqrt 2 * 20. -/
theorem waveform_84_samples :
    (generateWaveformData 20 50 60).length = ⌊(5 : ℝ) * (1000 / 60)⌋₊ + 1
    ∧ (generateWaveformData 20 50 60).length = 84
    ∧ (generateWaveformData 20 50 60).map WaveformSample.time
        = (List.range 84).map (fun n => (n : ℝ))
    ∧ (generateWaveformData 20 50 60).head?.map WaveformSample.dc
        = some (Real.sqrt 2 * 20) := by
  refine ⟨?_, ?_, ?_, ?_⟩
  · rw [generateWaveformData_60_eq, List.length_map, List.length_range,
      waveform60_floor]
  · rw [generateWaveformData_60_eq, List.length_map, List.length_range]
  · rw [generateWaveformData_60_eq, List.map_map]
    exact List.map_congr_left fun n _ => rfl
  · rw [generateWaveformData_60_eq]
    have h84 : List.range 84 = 0 :: List.range' 1 83 := by
      rw [List.range_eq_range']
      rfl
    rw [h84]
    simp only [List.map_cons, List.head?_cons, Option.map_some, waveformSampleAt]
    norm_num

/-- Witness for C6 at the default application data: the system source
flag is false there. -/
theorem zeros_skipped_iff_witness :
    ¬ (calculateSystemSourceFault genExample gsuExample sysExample 50).currentZerosSkipped :=
  zeros_skipped_iff_dc_gt_100.2 genExample gsuExample sysExample 50

end GCB
